import Mathlib

/-!
Shallow embedding of the streaming client of the `binance-api` repository.

The sections below translate, in order:
* `src/error.rs` — the three-tier error-code classifier (`CommonCode`,
  `WSApiCode`, `Code<C>`, its `TryFrom<i16>` impl and the deserializer's
  `visit_i64` range guard);
* `src/models.rs` — the websocket request/response/message models
  (`WSRequest`, `WSResponse`, `WSMessage`) and the `set_property` builder;
* `src/ws.rs` — the shared `ClientState`, `WSClient::send_request`, the
  inbound `EventDispatcher::dispatch_events` per-frame step and the outbound
  `RequestDispatcher::dispatch_requests` per-message step.

Machine integers are modelled as `Nat`/`Int`; the `u64` counter wraps with an
explicit `% 2^64`.  Fallible operations return `Except`/`Option`.  The two
asynchronous race points of `send_request` (completion channel vs. timer vs.
caller abandoning the future) are resolved by an explicit `RaceOutcome`
oracle, so the function becomes a pure state transformer.
-/

namespace Binance

/-- Equality of `Except` values is decidable when it is on both sides. -/
instance {ε α : Type} [DecidableEq ε] [DecidableEq α] :
    DecidableEq (Except ε α) := fun x y =>
  match x, y with
  | .ok a, .ok b => decidable_of_iff (a = b) (by simp)
  | .ok _, .error _ => isFalse (by simp)
  | .error _, .ok _ => isFalse (by simp)
  | .error a, .error b => decidable_of_iff (a = b) (by simp)

/-! ### `src/error.rs` — the error code classifier -/

/-- The `CommonCode` enum of `src/error.rs` (shared table of named codes,
`#[repr(i16)]` with explicit discriminants). -/
inductive CommonCode where
  | Unknown
  | Disconnected
  | Unauthorized
  | TooManyRequests
  | DuplicateIp
  | NoSuchIp
  | UnexpectedResponse
  | Timeout
  | ErrorMessageReceived
  | IpNotOnWhiteList
  | InvalidMessage
  | UnknownOrderComposition
  | TooManyOrders
  | ServiceShuttingDown
  | UnsupportedOperation
  | InvalidTimestamp
  | InvalidSignature
  | StartTimeGreaterThanEndTime
  | NotFoundOrAllowed
  | IllegalChars
  | TooManyParameters
  | MandatoryParameterEmptyOrMalformed
  | UnknownParameter
  | UnreadParameters
  | ParameterEmpty
  | ParameterNotRequired
  | BadAsset
  | BadAccount
  | BadInstrumentType
  | BadPrecision
  | NoDepth
  | WithdrawalNotNegative
  | TimeInForceNotRequired
  | InvalidTimeInForce
  | InvalidOrderType
  | InvalidSide
  | EmptyNewClientOrderId
  | EmptyOriginalClientOrderId
  | BadInterval
  | BadSymbol
  | InvalidListenKey
  | MoreThanXxHours
  | OptionalParametersBadCombination
  | InvalidParameter
  | BadReceiveWindow
  | BadApiId
  | NewOrderRejected
  | CancelRejected
  | NoSuchOrder
  | BadApiKeyFormat
  | RejectedApiKeyOrIp
  | NoTradingWindow
  | BalanceNotSufficient
  | MarginNotSufficient
  | UnableToFill
  | OrderWouldImmediatelyTrigger
  | ReduceOnlyReject
  | UserInLiquidation
  | PositionNotSufficient
  | MaxOpenOrderExceeded
  | ReduceOnlyOrderTypeNotSupported
  | MaxLeverageRatio
  | MinLeverageRatio
  deriving DecidableEq, Repr

/-- The `#[repr(i16)]` discriminant of each `CommonCode` variant. -/
def CommonCode.toI16 : CommonCode → Int
  | .Unknown => -1000
  | .Disconnected => -1001
  | .Unauthorized => -1002
  | .TooManyRequests => -1003
  | .DuplicateIp => -1004
  | .NoSuchIp => -1005
  | .UnexpectedResponse => -1006
  | .Timeout => -1007
  | .ErrorMessageReceived => -1010
  | .IpNotOnWhiteList => -1011
  | .InvalidMessage => -1013
  | .UnknownOrderComposition => -1014
  | .TooManyOrders => -1015
  | .ServiceShuttingDown => -1016
  | .UnsupportedOperation => -1020
  | .InvalidTimestamp => -1021
  | .InvalidSignature => -1022
  | .StartTimeGreaterThanEndTime => -1023
  | .NotFoundOrAllowed => -1099
  | .IllegalChars => -1100
  | .TooManyParameters => -1101
  | .MandatoryParameterEmptyOrMalformed => -1102
  | .UnknownParameter => -1103
  | .UnreadParameters => -1104
  | .ParameterEmpty => -1105
  | .ParameterNotRequired => -1106
  | .BadAsset => -1108
  | .BadAccount => -1109
  | .BadInstrumentType => -1110
  | .BadPrecision => -1111
  | .NoDepth => -1112
  | .WithdrawalNotNegative => -1113
  | .TimeInForceNotRequired => -1114
  | .InvalidTimeInForce => -1115
  | .InvalidOrderType => -1116
  | .InvalidSide => -1117
  | .EmptyNewClientOrderId => -1118
  | .EmptyOriginalClientOrderId => -1119
  | .BadInterval => -1120
  | .BadSymbol => -1121
  | .InvalidListenKey => -1125
  | .MoreThanXxHours => -1127
  | .OptionalParametersBadCombination => -1128
  | .InvalidParameter => -1130
  | .BadReceiveWindow => -1131
  | .BadApiId => -2008
  | .NewOrderRejected => -2010
  | .CancelRejected => -2011
  | .NoSuchOrder => -2013
  | .BadApiKeyFormat => -2014
  | .RejectedApiKeyOrIp => -2015
  | .NoTradingWindow => -2016
  | .BalanceNotSufficient => -2018
  | .MarginNotSufficient => -2019
  | .UnableToFill => -2020
  | .OrderWouldImmediatelyTrigger => -2021
  | .ReduceOnlyReject => -2022
  | .UserInLiquidation => -2023
  | .PositionNotSufficient => -2024
  | .MaxOpenOrderExceeded => -2025
  | .ReduceOnlyOrderTypeNotSupported => -2026
  | .MaxLeverageRatio => -2027
  | .MinLeverageRatio => -2028

/-- Every `CommonCode` variant, in declaration order. -/
def CommonCode.all : List CommonCode :=
  [.Unknown, .Disconnected, .Unauthorized, .TooManyRequests, .DuplicateIp,
   .NoSuchIp, .UnexpectedResponse, .Timeout, .ErrorMessageReceived,
   .IpNotOnWhiteList, .InvalidMessage, .UnknownOrderComposition,
   .TooManyOrders, .ServiceShuttingDown, .UnsupportedOperation,
   .InvalidTimestamp, .InvalidSignature, .StartTimeGreaterThanEndTime,
   .NotFoundOrAllowed, .IllegalChars, .TooManyParameters,
   .MandatoryParameterEmptyOrMalformed, .UnknownParameter, .UnreadParameters,
   .ParameterEmpty, .ParameterNotRequired, .BadAsset, .BadAccount,
   .BadInstrumentType, .BadPrecision, .NoDepth, .WithdrawalNotNegative,
   .TimeInForceNotRequired, .InvalidTimeInForce, .InvalidOrderType,
   .InvalidSide, .EmptyNewClientOrderId, .EmptyOriginalClientOrderId,
   .BadInterval, .BadSymbol, .InvalidListenKey, .MoreThanXxHours,
   .OptionalParametersBadCombination, .InvalidParameter, .BadReceiveWindow,
   .BadApiId, .NewOrderRejected, .CancelRejected, .NoSuchOrder,
   .BadApiKeyFormat, .RejectedApiKeyOrIp, .NoTradingWindow,
   .BalanceNotSufficient, .MarginNotSufficient, .UnableToFill,
   .OrderWouldImmediatelyTrigger, .ReduceOnlyReject, .UserInLiquidation,
   .PositionNotSufficient, .MaxOpenOrderExceeded,
   .ReduceOnlyOrderTypeNotSupported, .MaxLeverageRatio, .MinLeverageRatio]

/-- The derived `FromPrimitive::from_i16` for `CommonCode`: the variant whose
discriminant equals `v`, if any. -/
def CommonCode.fromI16 (v : Int) : Option CommonCode :=
  CommonCode.all.find? (fun c => c.toI16 == v)

/-- The `WSApiCode` enum of `src/error.rs` (`#[repr(i16)]`, discriminants
`0, 1, 2, 3`). -/
inductive WSApiCode where
  | UnknownProperty
  | InvalidValueType
  | InvalidRequest
  | InvalidJson
  deriving DecidableEq, Repr

/-- The `#[repr(i16)]` discriminant of each `WSApiCode` variant. -/
def WSApiCode.toI16 : WSApiCode → Int
  | .UnknownProperty => 0
  | .InvalidValueType => 1
  | .InvalidRequest => 2
  | .InvalidJson => 3

/-- The derived `FromPrimitive::from_i16` for `WSApiCode`. -/
def WSApiCode.fromI16 (v : Int) : Option WSApiCode :=
  ([.UnknownProperty, .InvalidValueType, .InvalidRequest, .InvalidJson]
    : List WSApiCode).find? (fun c => c.toI16 == v)

/-- The `Code<C>` enum of `src/error.rs`: a classified error code, generic
over the venue-specific table `C`. -/
inductive Code (C : Type) where
  | Common (c : CommonCode)
  | Api (c : C)
  | Filter (v : Int)
  deriving DecidableEq

/-- The error value produced by `TryFrom<i16> for Code<C>`
(`Err("a signed 16-bit integer")`). -/
def codeTryFromErr : String := "a signed 16-bit integer"

/-- `impl<C> TryFrom<i16> for Code<C>` of `src/error.rs`, generic over the
API-specific `FromPrimitive::from_i16` lookup of `C` (exactly as the source
impl is generic over `C: ApiCode`).  The shared `CommonCode` table is fixed. -/
def Code.tryFromI16 {C : Type} (apiFromI16 : Int → Option C) (v : Int) :
    Except String (Code C) :=
  if v ≤ -9000 then
    .ok (.Filter v)
  else if v ≤ -3000 ∨ v ≥ 0 then
    match apiFromI16 v with
    | some code => .ok (.Api code)
    | none => .error codeTryFromErr
  else
    match CommonCode.fromI16 v with
    | some code => .ok (.Common code)
    | none => .error codeTryFromErr

/-- The error value produced by `CodeVisitor::visit_i64`
(`E::invalid_value(Unexpected::Signed(value), &"a signed 16-bit integer")`);
both the range guard and the `map_err` of the `try_from` result produce this
same error. -/
def codeVisitErr : String := "invalid value, expected a signed 16-bit integer"

/-- `CodeVisitor::visit_i64` of `src/error.rs`: reject values outside the
signed 16-bit range, otherwise classify via `Code::try_from`, mapping its
error to the visitor's own. -/
def Code.visitI64 {C : Type} (apiFromI16 : Int → Option C) (v : Int) :
    Except String (Code C) :=
  if v < -32768 ∨ v > 32767 then
    .error codeVisitErr
  else
    (Code.tryFromI16 apiFromI16 v).mapError (fun _ => codeVisitErr)

/-! ### `src/models.rs` — websocket request/response models -/

/-- A model of `serde_json::Value` (an external library type), restricted to
the scalar shapes the client's `params` and `result` fields exercise. -/
inductive JsonValue where
  | null
  | bool (b : Bool)
  | num (n : Int)
  | str (s : String)
  deriving DecidableEq, Repr

/-- `serde_json::Value::default()` is `Value::Null`. -/
def JsonValue.default : JsonValue := .null

/-- The `WSRequestMethod` enum of `src/models.rs`. -/
inductive WSRequestMethod where
  | Subscribe
  | Unsubscribe
  | ListSubscriptions
  | SetProperty
  | GetProperty
  deriving DecidableEq, Repr

/-- The `WSRequest` struct of `src/models.rs`: optional correlation id, a
method, positional JSON params, and a client-side timeout (in milliseconds;
`#[serde(skip)]`, never serialized). -/
structure WSRequest where
  id : Option Nat
  method : WSRequestMethod
  params : List JsonValue
  timeout : Option Nat
  deriving DecidableEq, Repr

/-- `WSRequest::new` of `src/models.rs`. -/
def WSRequest.new (method : WSRequestMethod) : WSRequest :=
  { id := none, method := method, params := [], timeout := none }

/-- `WSRequest::set_property` of `src/models.rs`.  `valueSer` is the outcome
of `serde_json::to_value(value)` for the caller's value; the source applies
`unwrap_or_default()` to it, substituting `Value::default()` (null) when
serialization failed, and pushes the property name then the value as
positional params. -/
def WSRequest.set_property (r : WSRequest) (property : String)
    (valueSer : Except String JsonValue) : WSRequest :=
  { r with
    method := .SetProperty,
    params := r.params ++
      [.str property, valueSer.toOption.getD JsonValue.default] }

/-- The `WSResponse` struct of `src/models.rs`: correlation id plus an opaque
JSON result payload. -/
structure WSResponse where
  id : Nat
  result : JsonValue
  deriving DecidableEq, Repr

/-- The `WSMessage<OrderType>` enum of `src/models.rs` (untagged union of the
decoded text-frame shapes plus the internal keepalive echo), generic over the
event payload type `α` as the source is generic over `OrderType`. -/
inductive WSMessage (α : Type) where
  | Event (e : α)
  | Request (r : WSRequest)
  | Response (r : WSResponse)
  | Pong (p : List Nat)
  deriving DecidableEq

/-! ### `src/ws.rs` — shared client state, correlator and dispatchers -/

/-- `2^64`, the modulus of the `u64` correlation-id counter. -/
def u64Size : Nat := 2 ^ 64

/-- The `ClientState` struct of `src/ws.rs`.  The `requests` map
(`BTreeMap<u64, oneshot::Sender<..>>`) is modelled by its key set: the
completion channel associated with an id is determined by the id, and the
model records resolutions as explicit effects. -/
structure ClientState where
  is_closed : Bool
  next_id : Nat
  requests : Finset Nat
  deriving DecidableEq

/-- The state built in `WSClient::connect`:
`ClientState { is_closed: false, next_id: 1, requests: BTreeMap::new() }`. -/
def connectState : ClientState :=
  { is_closed := false, next_id := 1, requests := ∅ }

/-- The relevant `Error<WSApiCode>` variants of `src/error.rs` reachable in
the websocket client. -/
inductive ErrM where
  | WebsocketClosed
  | WebsocketRequestCancelled
  | WebsocketRequestTimeout
  | ResponseDecoding (s : String)
  | Websocket (s : String)
  deriving DecidableEq, Repr

/-- The first-completed branch of the three-way race at the end of
`WSClient::send_request`: the oneshot resolves with a value sent by a
dispatcher (`completed`), the oneshot's sender is dropped without a value
(`senderDropped`, surfaced as `WebsocketRequestCancelled`), the optional
timer fires (`timeoutFired`), or the caller drops the future before any of
these (`abandoned` — no further code of `send_request` runs). -/
inductive RaceOutcome where
  | completed (r : Except ErrM WSResponse)
  | senderDropped
  | timeoutFired
  | abandoned
  deriving DecidableEq

/-- Everything observable of one `WSClient::send_request` call: the session
state it leaves behind, the value it returns (`none` when the caller
abandoned the future), and the messages it pushed onto the outbound queue. -/
structure SendResult (α : Type) where
  state : ClientState
  result : Option (Except ErrM WSResponse)
  enqueued : List (WSMessage α)
  deriving DecidableEq

/-- `WSClient::send_request` of `src/ws.rs` as a pure state transformer,
with the race resolved by the `outcome` oracle.  Under the state lock: if
already closed, fail with `WebsocketClosed` touching nothing; otherwise set
`req.id = Some(next_id)`, insert the id into `requests`, increment `next_id`
(`u64` wrap-around explicit).  Then enqueue the command and await the race.
Note: no branch removes the id from `requests` — the source has no cleanup on
the timeout or abandonment paths. -/
def sendRequest {α : Type} (req : WSRequest) (outcome : RaceOutcome)
    (st : ClientState) : SendResult α :=
  if st.is_closed then
    { state := st, result := some (.error .WebsocketClosed), enqueued := [] }
  else
    let id := st.next_id
    let req' : WSRequest := { req with id := some id }
    let st' : ClientState :=
      { st with
        requests := insert id st.requests,
        next_id := (st.next_id + 1) % u64Size }
    let res : Option (Except ErrM WSResponse) :=
      match outcome with
      | .completed r => some r
      | .senderDropped => some (.error .WebsocketRequestCancelled)
      | .timeoutFired => some (.error .WebsocketRequestTimeout)
      | .abandoned => none
    { state := st', result := res, enqueued := [.Request req'] }

/-- One inbound websocket frame as seen by `EventDispatcher::dispatch_events`:
a text frame together with its `serde_json::from_str` outcome, a native ping
with its payload, a close frame, or any other frame kind (binary, pong —
ignored by the catch-all arm). -/
inductive InFrame (α : Type) where
  | Text (d : Except String (WSMessage α))
  | Ping (p : List Nat)
  | Close
  | OtherFrame
  deriving DecidableEq

/-- One iteration's input to the `dispatch_events` loop: a frame read from
the stream, a transport-level read error, end of stream, or the close signal
winning the select. -/
inductive InEvent (α : Type) where
  | frame (f : InFrame α)
  | transportErr (e : String)
  | streamEnd
  | closeSignal
  deriving DecidableEq

/-- Everything observable of one `dispatch_events` iteration: the updated
session state, the items sent to the event queue, the items forwarded to the
outbound queue, the response (if any) sent into a pending oneshot, and
whether the loop breaks after this iteration. -/
structure DispatchResult (α : Type) where
  state : ClientState
  events : List (Except ErrM α)
  outQueue : List (WSMessage α)
  resolved : Option WSResponse
  terminate : Bool
  deriving DecidableEq

/-- One iteration of `EventDispatcher::dispatch_events` of `src/ws.rs`.
A decoded `Event` goes to the event queue; a decoded `Response` removes its
pending entry under the lock and resolves it when present (dropped silently
when absent); other decoded shapes are ignored; a decode failure is surfaced
once to the event queue and terminates; a native ping forwards a
`WSMessage::Pong` with the same payload to the outbound queue; close frames,
end of stream, transport errors and the close signal terminate (a transport
error is surfaced first). -/
def dispatchStep {α : Type} (ev : InEvent α) (st : ClientState) :
    DispatchResult α :=
  match ev with
  | .frame (.Text (.ok m)) =>
    match m with
    | .Event e =>
      { state := st, events := [.ok e], outQueue := [], resolved := none,
        terminate := false }
    | .Response resp =>
      { state := { st with requests := st.requests.erase resp.id },
        events := [], outQueue := [],
        resolved := if resp.id ∈ st.requests then some resp else none,
        terminate := false }
    | _ =>
      { state := st, events := [], outQueue := [], resolved := none,
        terminate := false }
  | .frame (.Text (.error e)) =>
    { state := st, events := [.error (.ResponseDecoding e)], outQueue := [],
      resolved := none, terminate := true }
  | .frame (.Ping p) =>
    { state := st, events := [], outQueue := [.Pong p], resolved := none,
      terminate := false }
  | .frame .Close =>
    { state := st, events := [], outQueue := [], resolved := none,
      terminate := true }
  | .frame .OtherFrame =>
    { state := st, events := [], outQueue := [], resolved := none,
      terminate := false }
  | .transportErr e =>
    { state := st, events := [.error (.Websocket e)], outQueue := [],
      resolved := none, terminate := true }
  | .streamEnd =>
    { state := st, events := [], outQueue := [], resolved := none,
      terminate := true }
  | .closeSignal =>
    { state := st, events := [], outQueue := [], resolved := none,
      terminate := true }

/-- After the `dispatch_events` loop breaks, the dispatcher sets
`is_closed = true` under the lock (the only writer of that flag). -/
def finishDispatch (st : ClientState) : ClientState :=
  { st with is_closed := true }

/-- An outbound wire frame written by `RequestDispatcher` to the sink. -/
inductive OutFrame where
  | Text (s : String)
  | Pong (p : List Nat)
  deriving DecidableEq

/-- Everything observable of one `dispatch_requests` iteration besides the
state: the frames submitted to the sink, and the id (if any) whose pending
entry was removed and resolved with a transport error. -/
structure OutStepResult where
  writes : List OutFrame
  erroredId : Option Nat
  deriving DecidableEq

/-- One iteration of `RequestDispatcher::dispatch_requests` of `src/ws.rs`
on a received message.  `serialize` stands for `serde_json::to_string`;
`writeRes` is the combined outcome of serializing the request and sending the
frame (`dispatch_request`).  A `Pong` is sent with its result ignored.  On a
failed `Request` write, `return_error` is called with
`req.id.as_ref().unwrap()`: the model returns `none` exactly when that unwrap
would panic (id absent); otherwise the pending entry for the id is removed
under the lock and resolved with the error when present. -/
def dispatchRequestsStep {α : Type} (msg : WSMessage α)
    (serialize : WSRequest → String) (writeRes : Except String Unit)
    (st : ClientState) : Option (ClientState × OutStepResult) :=
  match msg with
  | .Pong p => some (st, { writes := [.Pong p], erroredId := none })
  | .Request req =>
    match writeRes with
    | .ok _ =>
      some (st, { writes := [.Text (serialize req)], erroredId := none })
    | .error _ =>
      match req.id with
      | some i =>
        some ({ st with requests := st.requests.erase i },
          { writes := [],
            erroredId := if i ∈ st.requests then some i else none })
      | none => none
  | _ => some (st, { writes := [], erroredId := none })

/-- The id extraction used by the `dispatch_requests` failure path
(`req.id` behind the unwrap), lifted to whole messages. -/
def requestMsgId {α : Type} : WSMessage α → Option Nat
  | .Request r => r.id
  | _ => none

/-- The pending-table invariant of the session state: every outstanding id
was allocated before the current `next_id`. -/
def pendingInv (st : ClientState) : Prop :=
  ∀ k ∈ st.requests, k < st.next_id

instance (st : ClientState) : Decidable (pendingInv st) := by
  unfold pendingInv
  infer_instance

/-- A sample caller command: a `SUBSCRIBE` request carrying a 10-unit
timeout, before id assignment. -/
def sampleReq : WSRequest :=
  { id := none, method := .Subscribe, params := [], timeout := some 10 }

/-- The state left by one `send_request` call whose timeout fired with no
reply (the timeout branch of the race). -/
def stepTimeout (st : ClientState) : ClientState :=
  (sendRequest (α := Unit) sampleReq .timeoutFired st).state

end Binance

namespace Binance

/-! ### Theorems on the classifier (claims C2, C3, C4) -/

/-- **C2.** For every signed 16-bit integer `v`, the classifier evaluates the
tiers in this exact order: `v ≤ -9000` yields a `Filter` code carrying `v`
unchanged; otherwise `v ≤ -3000 ∨ v ≥ 0` yields the API-specific table
lookup — the named code on a hit, a hard decode failure on a miss; otherwise
the `CommonCode` table lookup — the named code on a hit, a hard decode
failure on a miss. -/
theorem code_tryFromI16_tier_order (C : Type) (apiFromI16 : Int → Option C)
    (v : Int) (hlo : -32768 ≤ v) (hhi : v ≤ 32767) :
    (v ≤ -9000 → Code.tryFromI16 apiFromI16 v = .ok (.Filter v)) ∧
    (-9000 < v → (v ≤ -3000 ∨ 0 ≤ v) →
      Code.tryFromI16 apiFromI16 v =
        (match apiFromI16 v with
         | some code => .ok (.Api code)
         | none => .error codeTryFromErr)) ∧
    (-3000 < v → v < 0 →
      Code.tryFromI16 apiFromI16 v =
        (match CommonCode.fromI16 v with
         | some code => .ok (.Common code)
         | none => .error codeTryFromErr)) := by
  refine ⟨fun h => ?_, fun h1 h2 => ?_, fun h1 h2 => ?_⟩
  · simp [Code.tryFromI16, h]
  · have : ¬ v ≤ -9000 := by omega
    simp only [Code.tryFromI16, if_neg this]
    have : v ≤ -3000 ∨ v ≥ 0 := by omega
    rw [if_pos this]
  · have hx : ¬ v ≤ -9000 := by omega
    have hy : ¬ (v ≤ -3000 ∨ v ≥ 0) := by omega
    simp only [Code.tryFromI16, if_neg hx, if_neg hy]

/-- Witness for C2: at `v = -9500` (within the 16-bit range, in the filter
band) the classifier returns `Filter (-9500)` unchanged, instantiated at the
`WSApiCode` table. -/
theorem code_tryFromI16_tier_order_witness :
    Code.tryFromI16 WSApiCode.fromI16 (-9500) = .ok (.Filter (-9500)) :=
  (code_tryFromI16_tier_order WSApiCode WSApiCode.fromI16 (-9500)
    (by decide) (by decide)).1 (by decide)

/-- Counterexample to C3 as stated: classifying `-8999` (instantiated at the
`WSApiCode` table) does not yield a `Filter` code — the guard is
`v ≤ -9000` and `-8999 > -9000`, so `-8999` falls into the API-specific
tier, where it misses the table and is a hard decode failure. -/
theorem code_minus8999_not_filter :
    Code.tryFromI16 WSApiCode.fromI16 (-8999) = .error codeTryFromErr := by
  rfl

/-- **C3 (amended).** Classifying the value `-8999` is handled by the
API-specific tier, not the filter tier: for every API table the result is the
table lookup (the named code on a hit, a hard decode failure on a miss), and
it is never a `Filter` code. -/
theorem code_minus8999_api_tier (C : Type) (apiFromI16 : Int → Option C) :
    Code.tryFromI16 apiFromI16 (-8999) =
      (match apiFromI16 (-8999) with
       | some code => .ok (.Api code)
       | none => .error codeTryFromErr) ∧
    ∀ w : Int, Code.tryFromI16 apiFromI16 (-8999) ≠ .ok (.Filter w) := by
  constructor
  · simp [Code.tryFromI16]
  · intro w
    simp only [Code.tryFromI16]
    norm_num
    cases apiFromI16 (-8999) with
    | none => simp
    | some code => simp

/-- **C4.** For every integer outside the signed 16-bit range
`[-32768, 32767]`, decoding an error code fails before tier classification is
attempted: `visit_i64` returns the invalid-value error uniformly for every
API table, so the outcome does not depend on any classification table. -/
theorem code_visitI64_range_guard (C : Type) (apiFromI16 : Int → Option C)
    (v : Int) (h : v < -32768 ∨ v > 32767) :
    Code.visitI64 apiFromI16 v = .error codeVisitErr := by
  simp [Code.visitI64, h]

/-- Witness for C4: decoding `32768` (just above `i16::MAX`) fails, at the
`WSApiCode` table. -/
theorem code_visitI64_range_guard_witness :
    Code.visitI64 WSApiCode.fromI16 32768 = .error codeVisitErr :=
  code_visitI64_range_guard WSApiCode WSApiCode.fromI16 32768 (by decide)

/-! ### Theorems on the websocket client (claims C1, C5, C6, C7, C8, C9, C10) -/

/-- **C1 (code evaluated at the failing input).** `send_request` does *not*
remove the pending entry when the deadline elapses: one timed-out call on a
fresh session returns the timeout error yet leaves id `1` in the pending
table, the abandonment path also leaves its entry behind, and after three
timed-out requests with no replies the pending table holds three entries —
the table grows, contradicting the claim. -/
theorem sendRequest_timeout_leaks_pending :
    (sendRequest (α := Unit) sampleReq .timeoutFired connectState).result =
      some (.error .WebsocketRequestTimeout) ∧
    (stepTimeout connectState).requests = {1} ∧
    (sendRequest (α := Unit) sampleReq .abandoned connectState).state.requests
      = {1} ∧
    (stepTimeout (stepTimeout (stepTimeout connectState))).requests.card = 3
    := by
  refine ⟨rfl, by decide, by decide, by decide⟩

/-- **C5.** A `send_request` call made after the closed flag is set fails
immediately with the dedicated session-closed error and leaves the session
state untouched: no id is allocated, nothing is inserted into the pending
table, and nothing is enqueued. -/
theorem sendRequest_closed_fails_fast (α : Type) (req : WSRequest)
    (outcome : RaceOutcome) (st : ClientState) (h : st.is_closed = true) :
    sendRequest (α := α) req outcome st =
      { state := st, result := some (.error .WebsocketClosed),
        enqueued := [] } := by
  simp [sendRequest, h]

/-- Witness for C5: on a closed state with `next_id = 5` and one outstanding
request, `send_request` returns the session-closed error and the state is
unchanged. -/
theorem sendRequest_closed_fails_fast_witness :
    sendRequest (α := Unit) sampleReq .timeoutFired
        { is_closed := true, next_id := 5, requests := {2} } =
      { state := { is_closed := true, next_id := 5, requests := {2} },
        result := some (.error .WebsocketClosed), enqueued := [] } :=
  sendRequest_closed_fails_fast Unit sampleReq .timeoutFired
    { is_closed := true, next_id := 5, requests := {2} } rfl

/-- **C6.** On an open session: `next_id` starts at `1` at connect time with
an empty pending table; each `send_request` call enqueues its command with
id equal to the current `next_id`, that id is not outstanding (no reuse),
`next_id` increments by exactly one, and the pending-table invariant (every
outstanding id is below `next_id`, whence strictly increasing fresh ids) is
preserved both by `send_request` and by the dispatcher's response-removal
step. -/
theorem sendRequest_ids_strictly_increasing (α : Type) (req : WSRequest)
    (outcome : RaceOutcome) (st : ClientState) (resp : WSResponse)
    (hopen : st.is_closed = false) (hinv : pendingInv st)
    (hbound : st.next_id + 1 < u64Size) :
    connectState.next_id = 1 ∧ connectState.requests = ∅ ∧
    pendingInv connectState ∧
    (sendRequest (α := α) req outcome st).enqueued =
      [.Request { req with id := some st.next_id }] ∧
    st.next_id ∉ st.requests ∧
    (sendRequest (α := α) req outcome st).state.next_id = st.next_id + 1 ∧
    (sendRequest (α := α) req outcome st).state.requests =
      insert st.next_id st.requests ∧
    pendingInv (sendRequest (α := α) req outcome st).state ∧
    pendingInv (dispatchStep (α := α)
      (.frame (.Text (.ok (.Response resp)))) st).state := by
  have hmod : (st.next_id + 1) % u64Size = st.next_id + 1 :=
    Nat.mod_eq_of_lt hbound
  refine ⟨rfl, rfl, by decide, ?_, ?_, ?_, ?_, ?_, ?_⟩
  · simp [sendRequest, hopen]
  · intro hmem
    exact absurd (hinv st.next_id hmem) (lt_irrefl st.next_id)
  · simp [sendRequest, hopen, hmod]
  · simp [sendRequest, hopen]
  · intro k hk
    simp only [sendRequest, hopen, Bool.false_eq_true, if_false] at hk
    simp only [Finset.mem_insert] at hk
    simp only [sendRequest, hopen, Bool.false_eq_true, if_false, hmod]
    rcases hk with hk | hk
    · omega
    · exact Nat.lt_succ_of_lt (hinv k hk)
  · intro k hk
    simp only [dispatchStep] at hk
    exact hinv k (Finset.mem_of_mem_erase hk)

/-- Witness for C6: at the fresh connect state with a concrete request, the
first call enqueues id `1`, `next_id` moves to `2`, and the invariant holds
before and after. -/
theorem sendRequest_ids_strictly_increasing_witness :
    connectState.next_id = 1 ∧ connectState.requests = ∅ ∧
    pendingInv connectState ∧
    (sendRequest (α := Unit) sampleReq .timeoutFired connectState).enqueued =
      [.Request { sampleReq with id := some connectState.next_id }] ∧
    connectState.next_id ∉ connectState.requests ∧
    (sendRequest (α := Unit) sampleReq .timeoutFired
      connectState).state.next_id = connectState.next_id + 1 ∧
    (sendRequest (α := Unit) sampleReq .timeoutFired
      connectState).state.requests =
      insert connectState.next_id connectState.requests ∧
    pendingInv (sendRequest (α := Unit) sampleReq .timeoutFired
      connectState).state ∧
    pendingInv (dispatchStep (α := Unit)
      (.frame (.Text (.ok (.Response { id := 1, result := .null }))))
      connectState).state :=
  sendRequest_ids_strictly_increasing Unit sampleReq .timeoutFired
    connectState { id := 1, result := .null } rfl (by decide) (by decide)

/-- **C7.** For every inbound `Response` with id `i`, the inbound dispatcher
removes the pending entry for `i` under the state lock (so `i` is no longer
outstanding), resolves the entry's completion channel with the response
exactly when the entry was present and resolves nothing when it was absent,
emits nothing to the event queue, queues nothing outbound, and keeps the loop
running with the closed flag and `next_id` untouched. -/
theorem dispatch_response_resolves_pending (α : Type) (resp : WSResponse)
    (st : ClientState) :
    (dispatchStep (α := α) (.frame (.Text (.ok (.Response resp))))
        st).state.requests = st.requests.erase resp.id ∧
    resp.id ∉ (dispatchStep (α := α) (.frame (.Text (.ok (.Response resp))))
        st).state.requests ∧
    (dispatchStep (α := α) (.frame (.Text (.ok (.Response resp))))
        st).resolved =
      (if resp.id ∈ st.requests then some resp else none) ∧
    (dispatchStep (α := α) (.frame (.Text (.ok (.Response resp))))
        st).events = [] ∧
    (dispatchStep (α := α) (.frame (.Text (.ok (.Response resp))))
        st).outQueue = [] ∧
    (dispatchStep (α := α) (.frame (.Text (.ok (.Response resp))))
        st).terminate = false ∧
    (dispatchStep (α := α) (.frame (.Text (.ok (.Response resp))))
        st).state.is_closed = st.is_closed ∧
    (dispatchStep (α := α) (.frame (.Text (.ok (.Response resp))))
        st).state.next_id = st.next_id := by
  refine ⟨rfl, ?_, rfl, rfl, rfl, rfl, rfl, rfl⟩
  simp [dispatchStep]

/-- **C8.** A native ping with payload `p` produces exactly one keepalive
echo with the identical payload on the outbound queue and no event-queue
item, leaving the state untouched and the loop running; and the outbound
dispatcher, on receiving that echo, writes exactly one pong frame with the
identical payload to the connection. -/
theorem ping_echoes_identical_pong (α : Type) (p : List Nat)
    (st st2 : ClientState) (serialize : WSRequest → String)
    (writeRes : Except String Unit) :
    dispatchStep (α := α) (.frame (.Ping p)) st =
      { state := st, events := [], outQueue := [.Pong p], resolved := none,
        terminate := false } ∧
    dispatchRequestsStep (α := α) (.Pong p) serialize writeRes st2 =
      some (st2, { writes := [.Pong p], erroredId := none }) :=
  ⟨rfl, rfl⟩

/-- **C9.** Every message that `send_request` puts on the outbound queue is a
command already carrying the assigned correlation id (the current
`next_id`), so the outbound dispatcher's id extraction on the write-failure
path succeeds — its step never hits the panicking missing-id case, for any
write outcome and any state. -/
theorem enqueued_request_always_has_id (α : Type) (req : WSRequest)
    (outcome : RaceOutcome) (st st2 : ClientState) (m : WSMessage α)
    (hm : m ∈ (sendRequest (α := α) req outcome st).enqueued)
    (serialize : WSRequest → String) (writeRes : Except String Unit) :
    requestMsgId m = some st.next_id ∧
    (dispatchRequestsStep m serialize writeRes st2).isSome = true := by
  by_cases hc : st.is_closed
  · simp [sendRequest, hc] at hm
  · simp only [sendRequest, hc, Bool.false_eq_true, if_false,
      List.mem_singleton] at hm
    subst hm
    refine ⟨rfl, ?_⟩
    cases writeRes with
    | ok u => rfl
    | error e => rfl

/-- Witness for C9: the message enqueued by the first call on a fresh session
carries id `1`, and the outbound step on it with a failing write is defined
(no panic). -/
theorem enqueued_request_always_has_id_witness :
    requestMsgId (α := Unit)
        (.Request { sampleReq with id := some connectState.next_id }) =
      some connectState.next_id ∧
    (dispatchRequestsStep (α := Unit)
        (.Request { sampleReq with id := some connectState.next_id })
        (fun _ => ("")) (.error ("write failed")) connectState).isSome =
      true :=
  enqueued_request_always_has_id Unit sampleReq .timeoutFired connectState
    connectState (.Request { sampleReq with id := some connectState.next_id })
    (by decide) (fun _ => ("")) (.error ("write failed"))

/-- **C10.** When serialization of the value fails, the `set_property`
builder reports no error: it substitutes the default JSON value (null) as the
second positional parameter after the property name, producing exactly the
request it would produce for an explicit null value; on a fresh request the
params are `[property, null]`. -/
theorem set_property_defaults_to_null (r : WSRequest) (property : String)
    (emsg : String) :
    WSRequest.set_property r property (.error emsg) =
      { r with method := .SetProperty,
               params := r.params ++ [.str property, .null] } ∧
    WSRequest.set_property r property (.error emsg) =
      WSRequest.set_property r property (.ok .null) ∧
    ((WSRequest.new .SetProperty).set_property property (.error emsg)).params
      = [.str property, .null] :=
  ⟨rfl, rfl, rfl⟩

end Binance
